import Mathlib

/-!
Verification of the MatLayer layer-stack core (src/core/material_layers.py)
against its natural-language specification.

The Python source is shallowly embedded: the Blender-side state touched by
the code (the active object, its material slots, node trees, the
matlayer_layers collection property and the matlayer_layer_stack property
group) is a `World` record, and each operator `execute` method and module
function becomes a Lean function from `World` to `World` paired with a
`PyResult`.  A `PyResult.raised e` outcome models a Python exception of
class `e` escaping the translated code; mutations performed before the
raise are kept in the returned `World`, exactly as they persist in the
host.  Assigning an attribute that the owning property group does not
declare (the source writes `layer_stack.layer_index` although the class
only declares `selected_layer_index`) raises `AttributeError` in the host
and is translated as such.
-/

namespace MatLayer

/-! ### Decimal rendering of integers (Python `str`)

`str(n)` on a nonnegative Python int renders the usual decimal digits.
The source uses it for the random slot ids (`str(random.randrange(...))`)
and for the integer layer-node names (`str(layer_count)`).  `pyStrCore`
mirrors the standard most-significant-first digit loop with explicit fuel
(the fuel `n + 1` always suffices since `n / 10 < n`). -/

def digitChar (d : Nat) : Char := Char.ofNat (48 + d)

def pyStrCore : Nat → Nat → List Char → List Char
  | 0, _, acc => acc
  | fuel + 1, n, acc =>
    if n < 10 then digitChar n :: acc
    else pyStrCore fuel (n / 10) (digitChar (n % 10) :: acc)

/-- Python `str` on a nonnegative integer. -/
def pyStr (n : Nat) : String := ⟨pyStrCore (n + 1) n []⟩

/-- Python `str` on an arbitrary integer. -/
def pyStrInt (i : Int) : String :=
  if i < 0 then "-" ++ pyStr i.natAbs else pyStr i.toNat

/-- Reading a most-significant-first digit list back into a number. -/
def decodeStep (a : Nat) (c : Char) : Nat := 10 * a + (c.toNat - 48)

lemma digitChar_toNat {d : Nat} (h : d < 10) : (digitChar d).toNat = 48 + d := by
  interval_cases d <;> decide

lemma digitChar_ne_underscore {d : Nat} (h : d < 10) : digitChar d ≠ '_' := by
  interval_cases d <;> decide

lemma foldl_decode_pyStrCore :
    ∀ (fuel n : Nat) (acc : List Char) (a : Nat), n < fuel →
      ∃ k, 0 < k ∧ n < 10 ^ k ∧
        List.foldl decodeStep a (pyStrCore fuel n acc)
          = List.foldl decodeStep (a * 10 ^ k + n) acc := by
  intro fuel
  induction fuel with
  | zero => intro n acc a h; exact absurd h (Nat.not_lt_zero n)
  | succ fuel ih =>
    intro n acc a h
    by_cases h10 : n < 10
    · refine ⟨1, Nat.one_pos, by omega, ?_⟩
      simp only [pyStrCore, if_pos h10, List.foldl_cons]
      have hd : decodeStep a (digitChar n) = a * 10 ^ 1 + n := by
        simp [decodeStep, digitChar_toNat h10]
        omega
      rw [hd]
    · have hdiv : n / 10 < fuel := by
        have h1 : n / 10 < n := Nat.div_lt_self (by omega) (by omega)
        omega
      obtain ⟨k, hk0, hklt, hfold⟩ := ih (n / 10) (digitChar (n % 10) :: acc) a hdiv
      have hmod : n % 10 < 10 := Nat.mod_lt _ (by omega)
      have hdm : 10 * (n / 10) + n % 10 = n := Nat.div_add_mod n 10
      refine ⟨k + 1, by omega, ?_, ?_⟩
      · have : 10 ^ (k + 1) = 10 * 10 ^ k := by ring
        omega
      · simp only [pyStrCore, if_neg h10]
        rw [hfold, List.foldl_cons]
        have hstep : decodeStep (a * 10 ^ k + n / 10) (digitChar (n % 10))
            = a * 10 ^ (k + 1) + n := by
          simp only [decodeStep, digitChar_toNat hmod]
          have hp : a * 10 ^ (k + 1) = 10 * (a * 10 ^ k) := by ring
          rw [hp]
          generalize a * 10 ^ k = p
          omega
        rw [hstep]

lemma decode_pyStr (n : Nat) : List.foldl decodeStep 0 (pyStr n).data = n := by
  obtain ⟨k, _, _, h⟩ := foldl_decode_pyStrCore (n + 1) n [] 0 (Nat.lt_succ_self n)
  simpa using h

lemma pyStr_injective : Function.Injective pyStr := by
  intro m n h
  have hd : (pyStr m).data = (pyStr n).data := by rw [h]
  have hm := decode_pyStr m
  have hn := decode_pyStr n
  rw [hd] at hm
  omega

lemma mem_pyStrCore :
    ∀ (fuel n : Nat) (acc : List Char) (c : Char),
      c ∈ pyStrCore fuel n acc → c ∈ acc ∨ ∃ d, d < 10 ∧ c = digitChar d := by
  intro fuel
  induction fuel with
  | zero => intro n acc c h; exact Or.inl h
  | succ fuel ih =>
    intro n acc c h
    by_cases h10 : n < 10
    · simp only [pyStrCore, if_pos h10, List.mem_cons] at h
      rcases h with h | h
      · exact Or.inr ⟨n, h10, h⟩
      · exact Or.inl h
    · simp only [pyStrCore, if_neg h10] at h
      rcases ih (n / 10) _ c h with h | h
      · rcases List.mem_cons.mp h with h | h
        · exact Or.inr ⟨n % 10, Nat.mod_lt _ (by omega), h⟩
        · exact Or.inl h
      · exact Or.inr h

lemma pyStr_no_underscore (n : Nat) : '_' ∉ (pyStr n).data := by
  intro hmem
  rcases mem_pyStrCore (n + 1) n [] '_' hmem with h | ⟨d, hd, he⟩
  · simp at h
  · exact digitChar_ne_underscore hd he.symm

/-! ### Data model

The Blender-side data touched by `src/core/material_layers.py`:
property-group records, the shader node trees, and the scene-level layer
slot collection.  `MATLAYER_layers` declares only `hidden` next to the
`name` field every property-group collection element carries;
`MATLAYER_layer_stack` declares `selected_layer_index` (default `-1`).
The UI tab and preview fields of the stack record are never read or
written by the translated code and are omitted. -/

structure LayerSlot where
  name : String
  hidden : Bool
deriving DecidableEq

structure LayerStackState where
  selected_layer_index : Int
deriving DecidableEq

structure BlenderNode where
  name : String
  label : String
  node_tree : Option String
  outputs : List String
  inputs : List String
  width : Int
  location : Int × Int
deriving DecidableEq

structure BlenderLink where
  from_node : String
  from_socket : String
  to_node : String
  to_socket : String
deriving DecidableEq

structure BlenderNodeTree where
  name : String
  nodes : List BlenderNode
  links : List BlenderLink
deriving DecidableEq

structure BlenderMaterial where
  name : String
  node_tree : BlenderNodeTree
deriving DecidableEq

structure BlenderObject where
  name : String
  obj_type : String
  material_slots : List (Option BlenderMaterial)
  active_material_index : Nat
deriving DecidableEq

/-- The host state reachable from the translated code: the active object
(`bpy.context.active_object`, nullable), the node group datablocks
(`bpy.data.node_groups`), the layer slot store
(`context.scene.matlayer_layers`), the stack state
(`context.scene.matlayer_layer_stack`), the stream of pending
`random.randrange(0, 999999)` results, and the operator report log. -/
structure World where
  active_object : Option BlenderObject
  node_groups : List BlenderNodeTree
  matlayer_layers : List LayerSlot
  matlayer_layer_stack : LayerStackState
  rng : List Nat
  reports : List String
deriving DecidableEq

/-- Outcome of a translated Python call: a returned value, an escaped
exception (named by its Python class), or exhaustion of the modelled
randomness stream (the source loop would still be drawing tokens). -/
inductive PyResult (α : Type) where
  | ok (val : α)
  | raised (exc : String)
  | outOfRandomness
deriving DecidableEq

/-! ### Host collection API

Modelled from the spec: the Shader Graph Host and Target Object Provider
are consumed as opaque services (spec section 6) offering named-node
lookup, list reordering and link creation; these helpers give the
standard Blender `bpy_prop_collection` semantics of the calls the source
makes (`add`, `find`, `move`, `remove`, `get`, `links.new`). -/

/-- Modelled from the spec: `collection.find(key)` returns the index of
the first element whose `name` equals `key`, or `-1`. -/
def collFindAux (key : String) : List LayerSlot → Nat → Int
  | [], _ => -1
  | s :: rest, i => if s.name = key then (i : Int) else collFindAux key rest (i + 1)

def collFind (layers : List LayerSlot) (key : String) : Int :=
  collFindAux key layers 0

def insertAt (x : α) : Nat → List α → List α
  | 0, ys => x :: ys
  | _ + 1, [] => [x]
  | n + 1, y :: ys => y :: insertAt x n ys

/-- Modelled from the spec: `collection.move(src, dst)` removes the
element at `src` and reinserts it at `dst` (list reordering, spec
section 6); out-of-range `src` is a no-op. -/
def collMove (xs : List LayerSlot) (src dst : Nat) : List LayerSlot :=
  match xs[src]? with
  | none => xs
  | some x => insertAt x dst (xs.eraseIdx src)

/-- Modelled from the spec: `collection.remove(index)` removes the
element at `index` and fails with `IndexError` if out of bounds (spec
section 4.1). -/
def collRemove (xs : List LayerSlot) (i : Int) : Option (List LayerSlot) :=
  if 0 ≤ i ∧ i < (xs.length : Int) then some (xs.eraseIdx i.toNat) else none

/-- Modelled from the spec: named-node lookup within a graph (spec
section 6), Blender `nodes.get(key)`: first node called `key`, else
`None`. -/
def nodesGet (tree : BlenderNodeTree) (key : String) : Option BlenderNode :=
  tree.nodes.find? (fun nd => nd.name == key)

/-- Modelled from the spec: `bpy.data.node_groups.get(key)` — named
lookup of a node-group datablock, `None` when absent. -/
def nodeGroupsGet (groups : List BlenderNodeTree) (key : String) : Option BlenderNodeTree :=
  groups.find? (fun g => g.name == key)

/-- `object.active_material`: the material in the active material slot,
`None` when the slot list is empty, the index is out of range, or the
slot holds no material. -/
def activeMaterialOf (obj : BlenderObject) : Option BlenderMaterial :=
  match obj.material_slots[obj.active_material_index]? with
  | some slot => slot
  | none => none

/-- `bpy.context.active_object.active_material` as an optional value;
callers that would dereference a `None` active object raise instead. -/
def activeMaterial (w : World) : Option BlenderMaterial :=
  match w.active_object with
  | none => none
  | some obj => activeMaterialOf obj

/-- Replace the node tree of the active material in place (how every
mutation of `active_material.node_tree` lands back in the world). -/
def mapActiveMaterial (w : World) (f : BlenderMaterial → BlenderMaterial) : World :=
  match w.active_object with
  | none => w
  | some obj =>
    { w with active_object := some { obj with
        material_slots := obj.material_slots.set obj.active_material_index
          (match obj.material_slots[obj.active_material_index]? with
           | some (some mat) => some (f mat)
           | some none => none
           | none => none) } }

/-! ### Spec-modelled add-on utilities

The module imports `blender_addon_utils` from `..utilities`, a file of
this repository that is not under `src/`. -/

/-- Modelled from the spec: the default per-layer sub-graph template of
the Material Template Library (spec section 6); its interface exposes the
nine channel outputs relinked by the synchronizer (spec section 4.2). -/
def NINE_CHANNEL_OUTPUTS : List String :=
  ["Color", "Subsurface", "Metallic", "Specular", "Roughness", "Emission", "Alpha", "Normal", "Height"]

def mkNode (nm : String) (outs ins : List String) : BlenderNode :=
  { name := nm, label := "", node_tree := none, outputs := outs, inputs := ins,
    width := 140, location := (0, 0) }

/-- Modelled from the spec: `blender_addon_utils.append_default_node_groups`
(missing from src): appends the default sub-graph templates by name,
idempotently — re-appending a known template name must not duplicate it
(spec section 6). -/
def append_default_node_groups (w : World) : World :=
  if (nodeGroupsGet w.node_groups "ML_DefaultLayer").isSome then w
  else { w with node_groups := w.node_groups ++
          [{ name := "ML_DefaultLayer", nodes := [], links := [] }] }

/-- Modelled from the spec: `blender_addon_utils.append_material`
(missing from src): fetches the default material template by name from
the Material Template Library (spec section 6); the template holds the
final shading node and the normal/height combiner wired by
`relink_outputs` (spec section 4.2). -/
def append_material (template_name : String) : BlenderMaterial :=
  { name := template_name,
    node_tree :=
      { name := template_name,
        nodes :=
          [mkNode "MATLAYER_BSDF" []
             ["Base Color", "Subsurface", "Metallic", "Specular", "Roughness", "Emission", "Alpha"],
           mkNode "NORMAL_HEIGHT_MIX" [] ["Normal", "Height"]],
        links := [] } }

/-- Modelled from the spec: `blender_addon_utils.append_node_group`
(missing from src): sub-graph template instantiation by name, idempotent
(spec section 6) — returns the datablock already present under that name
or appends a fresh template copy. -/
def append_node_group (w : World) (nm : String) : World × BlenderNodeTree :=
  match nodeGroupsGet w.node_groups nm with
  | some g => (w, g)
  | none =>
    let fresh : BlenderNodeTree := { name := nm, nodes := [], links := [] }
    ({ w with node_groups := w.node_groups ++ [fresh] }, fresh)

/-- Modelled from the spec: `blender_addon_utils.log_status` (missing
from src): reports a message to the user (spec section 7). -/
def log_status (w : World) (message : String) : World :=
  { w with reports := w.reports ++ [message] }

/-- Rename a node-group datablock (first one with the old name). -/
def renameNodeGroup (w : World) (oldName newName : String) : World :=
  let groups1 := w.node_groups.map
    (fun g => if g.name = oldName then { g with name := newName } else g)
  { w with node_groups := groups1 }

/-! ### Translated module functions (src/core/material_layers.py) -/

/-- Source lines 220-222: formats the layer group node names,
`"{0}_{1}".format(active_material_name, layer_index)`. -/
def format_layer_group_node_name (active_material_name : String) (layer_index : Int) : String :=
  active_material_name ++ "_" ++ pyStrInt layer_index

/-- Source lines 228-251: returns the desired material node if it
exists.  When `bpy.context.active_object` is `None` the attribute read on
line 230 raises; when the active material is `None` the `if` guard fails
and the function falls through to an implicit `return None`; an
unrecognized `layer_node_name` matches no case and also yields `None`.
For the node-group kinds, `bpy.data.node_groups.get(...)` returning
`None` makes the chained `.nodes` access raise `AttributeError`. -/
def get_material_layer_node (w : World) (layer_node_name : String) (layer_index : Int)
    (material_channel_name : String) : PyResult (Option BlenderNode) :=
  match w.active_object with
  | none => .raised "AttributeError"
  | some obj =>
    match activeMaterialOf obj with
    | none => .ok none
    | some active_material =>
      let layer_group_node_name := format_layer_group_node_name active_material.name layer_index
      if layer_node_name = "LAYER" then
        .ok (nodesGet active_material.node_tree (pyStrInt layer_index))
      else if layer_node_name = "PROJECTION" then
        match nodeGroupsGet w.node_groups layer_group_node_name with
        | none => .raised "AttributeError"
        | some g => .ok (nodesGet g "PROJECTION")
      else if layer_node_name = "MIX" then
        match nodeGroupsGet w.node_groups layer_group_node_name with
        | none => .raised "AttributeError"
        | some g => .ok (nodesGet g (material_channel_name.toUpper ++ "_MIX"))
      else if layer_node_name = "OPACITY" then
        match nodeGroupsGet w.node_groups layer_group_node_name with
        | none => .raised "AttributeError"
        | some g => .ok (nodesGet g (material_channel_name.toUpper ++ "_OPACITY"))
      else if layer_node_name = "VALUE" then
        match nodeGroupsGet w.node_groups layer_group_node_name with
        | none => .raised "AttributeError"
        | some g => .ok (nodesGet g (material_channel_name.toUpper ++ "_VALUE"))
      else if layer_node_name = "OUTPUT" then
        match nodeGroupsGet w.node_groups layer_group_node_name with
        | none => .raised "AttributeError"
        | some g => .ok (nodesGet g "Group Output")
      else if layer_node_name = "INPUT" then
        match nodeGroupsGet w.node_groups layer_group_node_name with
        | none => .raised "AttributeError"
        | some g => .ok (nodesGet g "Group Input")
      else
        .ok none

/-- The probe loop of `read_total_layers` (source lines 288-290):
`layer_count = 1; while nodes.get(str(layer_count)): layer_count += 1`,
with explicit fuel.  Fuel `tree.nodes.length + 1` always suffices: each
successful probe consumes a distinct node name. -/
def countLayersFrom (tree : BlenderNodeTree) (start : Nat) : Nat → Nat
  | 0 => start
  | fuel + 1 =>
    match nodesGet tree (pyStr start) with
    | some _ => countLayersFrom tree (start + 1) fuel
    | none => start

def read_total_layers_tree (tree : BlenderNodeTree) : Nat :=
  countLayersFrom tree 1 (tree.nodes.length + 1)

/-- Source lines 285-291: counts the total layers in the active material
by reading its node tree; raises when there is no active object or no
active material. -/
def read_total_layers (w : World) : PyResult Nat :=
  match w.active_object with
  | none => .raised "AttributeError"
  | some obj =>
    match activeMaterialOf obj with
    | none => .raised "AttributeError"
    | some active_material => .ok (read_total_layers_tree active_material.node_tree)

/-- The token retry loop of `add_material_layer_slot` (source lines
262-264): draw `str(random.randrange(0, 999999))` and redraw while
`layers.find(id) != -1`.  Consumes draws from the modelled stream;
returns the first collision-free token and the remaining stream. -/
def findFreshId (layers : List LayerSlot) : List Nat → Option (String × List Nat)
  | [] => none
  | draw :: rest =>
    let uid := pyStr draw
    if collFind layers uid ≠ -1 then findFreshId layers rest
    else some (uid, rest)

/-- Source lines 253-283: adds a new slot to the material layer stack.
The slot is appended (`layers.add()`, default `name` is the empty
string), given a collision-checked random id, and moved: to position 0
when nothing was selected, else to `max(0, min(selected + 1, len - 1))`.
Both branches then execute `layer_stack.layer_index = move_to_index`
(source lines 272 and 280) — but `MATLAYER_layer_stack` declares no
`layer_index` property (it declares `selected_layer_index`, line 59), so
the host raises `AttributeError` there and the `return` on line 283 is
never reached; the collection mutations made before the raise persist. -/
def add_material_layer_slot (w : World) : World × PyResult Int :=
  let selected_layer_index := w.matlayer_layer_stack.selected_layer_index
  let layers1 := w.matlayer_layers ++ [{ name := "", hidden := false }]
  match findFreshId layers1 w.rng with
  | none => ({ w with matlayer_layers := layers1, rng := [] }, .outOfRandomness)
  | some (uid, rng1) =>
    let layers2 := layers1.set (layers1.length - 1) { name := uid, hidden := false }
    if selected_layer_index < 0 then
      let layers3 := collMove layers2 (layers2.length - 1) 0
      ({ w with matlayer_layers := layers3, rng := rng1 }, .raised "AttributeError")
    else
      let move_to_index := max 0 (min (selected_layer_index + 1) ((layers2.length : Int) - 1))
      let layers3 := collMove layers2 (layers2.length - 1) move_to_index.toNat
      ({ w with matlayer_layers := layers3, rng := rng1 }, .raised "AttributeError")

/-! ### Translated operators -/

/-- Source lines 183-188 (`MATLAYER_OT_delete_layer.execute`): removes
the slot at the selected index, then executes
`layer_stack.layer_index = max(min(selected - 1, len(layers) - 1), 0)`
(line 187) — again an undeclared property, so after the removal the host
raises `AttributeError` and `selected_layer_index` is never updated. -/
def delete_layer_execute (w : World) : World × PyResult Unit :=
  let selected_layer_index := w.matlayer_layer_stack.selected_layer_index
  match collRemove w.matlayer_layers selected_layer_index with
  | none => (w, .raised "IndexError")
  | some layers1 => ({ w with matlayer_layers := layers1 }, .raised "AttributeError")

/-- Source lines 200-202 (`MATLAYER_OT_duplicate_layer.execute`): the
body only returns `FINISHED`. -/
def duplicate_layer_execute (w : World) : World × PyResult Unit := (w, .ok ())

/-- Source lines 216-218 (`MATLAYER_OT_move_material_layer.execute`):
despite the `direction` property and the description, the body only
returns `FINISHED`. -/
def move_material_layer_execute (_direction : String) (w : World) : World × PyResult Unit :=
  (w, .ok ())

/-- Source lines 157-158 (`MATLAYER_OT_add_paint_material_layer.execute`):
the body only returns `FINISHED`. -/
def add_paint_material_layer_execute (w : World) : World × PyResult Unit := (w, .ok ())

/-- Source lines 170-171 (`MATLAYER_OT_add_decal_material_layer.execute`):
the body only returns `FINISHED`. -/
def add_decal_material_layer_execute (w : World) : World × PyResult Unit := (w, .ok ())

/-- Source lines 293-304 (`organize_layer_group_nodes` loop body): for
each found integer-named node set its width to 300 and its location to
`(position_x, 0)`, stepping `position_x` by -500 per found node. -/
def organizeLoop : BlenderNodeTree → List Nat → Int → BlenderNodeTree
  | tree, [], _ => tree
  | tree, i :: rest, position_x =>
    match nodesGet tree (pyStr i) with
    | some _ =>
      let nodes1 := tree.nodes.map
        (fun nd => if nd.name = pyStr i then { nd with width := 300, location := (position_x, 0) } else nd)
      organizeLoop { tree with nodes := nodes1 } rest (position_x - 500)
    | none => organizeLoop tree rest position_x

/-- Source lines 293-304: organizes all layer group nodes in the active
material; raises when there is no active object or material (the
`read_total_layers` call on line 296 dereferences them). -/
def organize_layer_group_nodes (w : World) : World × PyResult Unit :=
  match w.active_object with
  | none => (w, .raised "AttributeError")
  | some obj =>
    match activeMaterialOf obj with
    | none => (w, .raised "AttributeError")
    | some active_material =>
      let layer_count := read_total_layers_tree active_material.node_tree
      let tree1 := organizeLoop active_material.node_tree (List.range layer_count) (-500)
      (mapActiveMaterial w (fun m => { m with node_tree := tree1 }), .ok ())

/-- `node.outputs.get(key)` on a possibly-`None` node reference: the
attribute access raises on `None`, else the socket or `None`. -/
def socketGetOut (nd : Option BlenderNode) (key : String) : PyResult (Option (String × String)) :=
  match nd with
  | none => .raised "AttributeError"
  | some n => .ok (if key ∈ n.outputs then some (n.name, key) else none)

/-- `node.inputs.get(key)` on a possibly-`None` node reference. -/
def socketGetIn (nd : Option BlenderNode) (key : String) : PyResult (Option (String × String)) :=
  match nd with
  | none => .raised "AttributeError"
  | some n => .ok (if key ∈ n.inputs then some (n.name, key) else none)

/-- Modelled from the spec: `links.new(a, b)` — link creation between
named sockets (spec section 6); pre-existing links on the target input
socket are replaced, last-writer-wins (spec section 4.2); a `None`
argument raises. -/
def linksNew (tree : BlenderNodeTree) (a b : Option (String × String)) : PyResult BlenderNodeTree :=
  match a, b with
  | some (fn, fs), some (tn, ts) =>
    .ok { tree with links :=
      tree.links.filter (fun l => !(l.to_node == tn && l.to_socket == ts)) ++
        [{ from_node := fn, from_socket := fs, to_node := tn, to_socket := ts }] }
  | _, _ => .raised "TypeError"

/-- Source lines 322-330, one `links.new(layer_node.outputs.get(out),
target.inputs.get(inp))` statement per list entry, evaluated in source
order: the output lookup first, then the input lookup, then the link
call; the tree mutated so far is kept when a statement raises. -/
def runLinks (layer_node : Option BlenderNode) :
    BlenderNodeTree → List (String × Option BlenderNode × String) → BlenderNodeTree × PyResult Unit
  | tree, [] => (tree, .ok ())
  | tree, (osock, target, isock) :: rest =>
    match socketGetOut layer_node osock with
    | .raised e => (tree, .raised e)
    | .outOfRandomness => (tree, .outOfRandomness)
    | .ok a =>
      match socketGetIn target isock with
      | .raised e => (tree, .raised e)
      | .outOfRandomness => (tree, .outOfRandomness)
      | .ok b =>
        match linksNew tree a b with
        | .raised e => (tree, .raised e)
        | .outOfRandomness => (tree, .outOfRandomness)
        | .ok tree1 => runLinks layer_node tree1 rest

/-- The nine channel connections of source lines 322-330: seven into the
principled BSDF node, then normal and height into the combiner node. -/
def linkPlan (principled_bsdf normal_and_height_mix : Option BlenderNode) :
    List (String × Option BlenderNode × String) :=
  [("Color", principled_bsdf, "Base Color"),
   ("Subsurface", principled_bsdf, "Subsurface"),
   ("Metallic", principled_bsdf, "Metallic"),
   ("Specular", principled_bsdf, "Specular"),
   ("Roughness", principled_bsdf, "Roughness"),
   ("Emission", principled_bsdf, "Emission"),
   ("Alpha", principled_bsdf, "Alpha"),
   ("Normal", normal_and_height_mix, "Normal"),
   ("Height", normal_and_height_mix, "Height")]

/-- Source lines 306-330: connects the layer group node at index 0 to
the principled BSDF shader and the normal/height combiner.  The three
node lookups (lines 318-320) return `None` silently when missing; the
first link statement that dereferences a `None` reference raises, with
every link created before it kept. -/
def connect_layer_group_nodes (w : World) : World × PyResult Unit :=
  match read_total_layers w with
  | .raised e => (w, .raised e)
  | .outOfRandomness => (w, .outOfRandomness)
  | .ok _ =>
    match activeMaterial w with
    | none => (w, .raised "AttributeError")
    | some active_material =>
      let principled_bsdf := nodesGet active_material.node_tree "MATLAYER_BSDF"
      let normal_and_height_mix := nodesGet active_material.node_tree "NORMAL_HEIGHT_MIX"
      match get_material_layer_node w "LAYER" 0 "Color" with
      | .raised e => (w, .raised e)
      | .outOfRandomness => (w, .outOfRandomness)
      | .ok layer_node =>
        let res := runLinks layer_node active_material.node_tree
          (linkPlan principled_bsdf normal_and_height_mix)
        (mapActiveMaterial w (fun m => { m with node_tree := res.1 }), res.2)

/-- Source lines 108-145 (`MATLAYER_OT_add_material_layer.execute`).
Order of effects: append the default node groups; abort with a user
message when the active object is not a mesh; ensure a material exists in
the active slot (lines 119-129); run `add_material_layer_slot` — which
always raises `AttributeError` before returning (see there), so the layer
group node creation of lines 134-143 is dead code, translated here for
completeness in the `ok` branch. -/
def add_material_layer_execute (w : World) : World × PyResult Unit :=
  match w.active_object with
  | none => (w, .raised "AttributeError")
  | some active_object =>
    let w1 := append_default_node_groups w
    if active_object.obj_type ≠ "MESH" then
      (log_status w1 "Selected object must be a mesh to add materials", .ok ())
    else
      let ensure : PyResult World :=
        if active_object.material_slots.length = 0 then
          let appended := append_material "DefaultMatLayerMaterial"
          let new_material := { appended with name := active_object.name }
          .ok { w1 with active_object := some { active_object with
                  material_slots := active_object.material_slots ++ [some new_material],
                  active_material_index := 0 } }
        else
          match active_object.material_slots[active_object.active_material_index]? with
          | none => .raised "IndexError"
          | some none =>
            let appended := append_material "DefaultMatLayerMaterial"
            let new_material := { appended with name := active_object.name }
            .ok { w1 with active_object := some { active_object with
                    material_slots := active_object.material_slots.set
                      active_object.active_material_index (some new_material) } }
          | some (some _) => .ok w1
      match ensure with
      | .raised e => (w1, .raised e)
      | .outOfRandomness => (w1, .outOfRandomness)
      | .ok w2 =>
        match add_material_layer_slot w2 with
        | (w3, .raised e) => (w3, .raised e)
        | (w3, .outOfRandomness) => (w3, .outOfRandomness)
        | (w3, .ok new_layer_slot_index) =>
          match activeMaterial w3 with
          | none => (w3, .raised "AttributeError")
          | some active_material =>
            let (w4, default_layer_node_group) := append_node_group w3 "ML_DefaultLayer"
            let renamed := format_layer_group_node_name active_material.name new_layer_slot_index
            let w5 := renameNodeGroup w4 default_layer_node_group.name renamed
            let new_layer_group_node : BlenderNode :=
              { name := pyStrInt new_layer_slot_index,
                label := "Layer " ++ pyStrInt new_layer_slot_index,
                node_tree := some renamed,
                outputs := NINE_CHANNEL_OUTPUTS, inputs := [],
                width := 140, location := (0, 0) }
            let w6 := mapActiveMaterial w5 (fun m =>
              { m with node_tree := { m.node_tree with nodes := m.node_tree.nodes ++ [new_layer_group_node] } })
            match organize_layer_group_nodes w6 with
            | (w7, .ok _) => connect_layer_group_nodes w7
            | (w7, r) => (w7, r)

/-- Every operator in the file declares the same `poll`: available only
when `context.active_object` is truthy.  Invoking an operator whose poll
fails is rejected by the host before `execute` runs. -/
def pollActiveObject (w : World) : Bool := w.active_object.isSome

def runOperator (execute : World → World × PyResult Unit) (w : World) : World × PyResult Unit :=
  if pollActiveObject w then execute w else (w, .raised "RuntimeError")

/-! ### Supporting lemmas -/

lemma insertAt_perm (x : α) : ∀ (n : Nat) (ys : List α), List.Perm (insertAt x n ys) (x :: ys) := by
  intro n
  induction n with
  | zero => intro ys; simp [insertAt]
  | succ n ih =>
    intro ys
    cases ys with
    | nil => simp [insertAt]
    | cons y ys =>
      exact ((ih ys).cons y).trans (List.Perm.swap x y ys)

lemma cons_eraseIdx_perm :
    ∀ (xs : List α) (i : Nat) (x : α), xs[i]? = some x → List.Perm (x :: xs.eraseIdx i) xs := by
  intro xs
  induction xs with
  | nil => intro i x h; simp at h
  | cons c rest ih =>
    intro i x h
    cases i with
    | zero =>
      simp at h
      subst h
      simp [List.eraseIdx]
    | succ i =>
      simp at h
      have h1 : x :: (c :: rest).eraseIdx (i + 1) = x :: c :: rest.eraseIdx i := by
        simp [List.eraseIdx]
      rw [h1]
      exact (List.Perm.swap c x _).trans ((ih i x h).cons c)

lemma collMove_perm (xs : List LayerSlot) (src dst : Nat) :
    List.Perm (collMove xs src dst) xs := by
  unfold collMove
  cases h : xs[src]? with
  | none => exact List.Perm.refl xs
  | some x => exact (insertAt_perm x dst _).trans (cons_eraseIdx_perm xs src x h)

lemma set_append_last (xs : List α) (b v : α) : (xs ++ [b]).set xs.length v = xs ++ [v] := by
  induction xs with
  | nil => simp
  | cons c xs ih => simp [List.set, ih]

lemma collFindAux_eq_neg_one :
    ∀ (ls : List LayerSlot) (i : Nat) (key : String),
      collFindAux key ls i = -1 → ∀ s ∈ ls, s.name ≠ key := by
  intro ls
  induction ls with
  | nil => intro i key _ s hs; simp at hs
  | cons c rest ih =>
    intro i key h s hs
    by_cases hc : c.name = key
    · rw [collFindAux, if_pos hc] at h
      omega
    · rw [collFindAux, if_neg hc] at h
      rcases List.mem_cons.mp hs with rfl | hs
      · exact hc
      · exact ih (i + 1) key h s hs

lemma collFind_eq_neg_one (layers : List LayerSlot) (key : String) :
    collFind layers key = -1 → ∀ s ∈ layers, s.name ≠ key :=
  collFindAux_eq_neg_one layers 0 key

lemma findFreshId_spec :
    ∀ (layers : List LayerSlot) (rng : List Nat) (uid : String) (rng1 : List Nat),
      findFreshId layers rng = some (uid, rng1) → collFind layers uid = -1 := by
  intro layers rng
  induction rng with
  | nil => intro uid rng1 h; simp [findFreshId] at h
  | cons draw rest ih =>
    intro uid rng1 h
    rw [findFreshId] at h
    split at h
    · exact ih uid rng1 h
    · rename_i hfind
      cases h
      omega

lemma countLayersFrom_eq (tree : BlenderNodeTree) (target : Nat) :
    ∀ (fuel start : Nat), start ≤ target → target - start < fuel →
      (∀ k, start ≤ k → k < target → (nodesGet tree (pyStr k)).isSome = true) →
      nodesGet tree (pyStr target) = none →
      countLayersFrom tree start fuel = target := by
  intro fuel
  induction fuel with
  | zero => intro start h1 h2 _ _; omega
  | succ fuel ih =>
    intro start h1 h2 hhit hmiss
    by_cases hst : start = target
    · subst hst
      rw [countLayersFrom, hmiss]
    · have hlt : start < target := by omega
      have hs := hhit start le_rfl hlt
      cases hg : nodesGet tree (pyStr start) with
      | none => rw [hg] at hs; simp at hs
      | some nd =>
        rw [countLayersFrom, hg]
        exact ih (start + 1) (by omega) (by omega) (fun k hk1 hk2 => hhit k (by omega) hk2) hmiss

/-- Pigeonhole for the probe fuel: a tree whose integer-named nodes are
exactly `0 .. n-1` has at least `n` nodes. -/
lemma exact_names_length_le (tree : BlenderNodeTree) (n : Nat)
    (hexact : ∀ k : Nat, (∃ nd ∈ tree.nodes, nd.name = pyStr k) ↔ k < n) :
    n ≤ tree.nodes.length := by
  have hsub : (List.range n).map pyStr ⊆ tree.nodes.map BlenderNode.name := by
    intro s hs
    rcases List.mem_map.mp hs with ⟨k, hk, rfl⟩
    rcases (hexact k).mpr (List.mem_range.mp hk) with ⟨nd, hnd, hname⟩
    exact List.mem_map.mpr ⟨nd, hnd, hname⟩
  have hnd : ((List.range n).map pyStr).Nodup :=
    (List.nodup_range n).map (fun a b h => pyStr_injective h)
  have := (hnd.subperm hsub).length_le
  simpa using this

lemma nodesGet_isSome_of_exists (tree : BlenderNodeTree) (key : String)
    (h : ∃ nd ∈ tree.nodes, nd.name = key) : (nodesGet tree key).isSome = true := by
  rcases h with ⟨nd, hnd, hname⟩
  unfold nodesGet
  rw [List.find?_isSome]
  exact ⟨nd, hnd, by simp [hname]⟩

lemma nodesGet_eq_none_of_forall (tree : BlenderNodeTree) (key : String)
    (h : ∀ nd ∈ tree.nodes, nd.name ≠ key) : nodesGet tree key = none := by
  unfold nodesGet
  rw [List.find?_eq_none]
  intro nd hnd
  simpa using h nd hnd

lemma string_data_append (s t : String) : (s ++ t).data = s.data ++ t.data := rfl

lemma string_eq_of_data_eq {s t : String} (h : s.data = t.data) : s = t := by
  cases s
  cases t
  exact congrArg String.mk h

lemma append_default_node_groups_fields (w : World) :
    (append_default_node_groups w).matlayer_layers = w.matlayer_layers
    ∧ (append_default_node_groups w).matlayer_layer_stack = w.matlayer_layer_stack
    ∧ (append_default_node_groups w).active_object = w.active_object
    ∧ (append_default_node_groups w).reports = w.reports := by
  unfold append_default_node_groups
  split <;> simp

lemma activeMaterial_congr {w1 w2 : World} (h : w1.active_object = w2.active_object) :
    activeMaterial w1 = activeMaterial w2 := by
  unfold activeMaterial
  rw [h]

/-- The names of the concurrently existing layer slots are pairwise
distinct. -/
abbrev NamesNodup (w : World) : Prop := (w.matlayer_layers.map LayerSlot.name).Nodup

/-- The result of `add_material_layer_slot`: when the randomness stream
sufficed, some collision-free token `uid` was drawn and the resulting
slot store is a permutation of the old store with one slot named `uid`
appended. -/
lemma add_slot_layers (w : World) :
    (∃ uid rng1,
        findFreshId (w.matlayer_layers ++ [({ name := "", hidden := false } : LayerSlot)]) w.rng
          = some (uid, rng1)
        ∧ List.Perm ((add_material_layer_slot w).1.matlayer_layers)
            (w.matlayer_layers ++ [({ name := uid, hidden := false } : LayerSlot)]))
    ∨ (add_material_layer_slot w).2 = PyResult.outOfRandomness := by
  cases hf : findFreshId (w.matlayer_layers ++ [({ name := "", hidden := false } : LayerSlot)]) w.rng with
  | none => right; simp only [add_material_layer_slot, hf]
  | some pr =>
    obtain ⟨uid, rng1⟩ := pr
    left
    refine ⟨uid, rng1, rfl, ?_⟩
    have hset : (w.matlayer_layers ++ [({ name := "", hidden := false } : LayerSlot)]).set
        ((w.matlayer_layers ++ [({ name := "", hidden := false } : LayerSlot)]).length - 1)
        ({ name := uid, hidden := false } : LayerSlot)
        = w.matlayer_layers ++ [({ name := uid, hidden := false } : LayerSlot)] := by
      have hlen : (w.matlayer_layers ++ [({ name := "", hidden := false } : LayerSlot)]).length - 1
          = w.matlayer_layers.length := by simp
      rw [hlen, set_append_last]
    by_cases hsel : w.matlayer_layer_stack.selected_layer_index < 0
    · simp only [add_material_layer_slot, hf, if_pos hsel, hset]
      exact collMove_perm _ _ _
    · simp only [add_material_layer_slot, hf, if_neg hsel, hset]
      exact collMove_perm _ _ _

/-- One successful `add_material_layer_slot` call preserves pairwise
distinctness of slot ids: the retry loop guarantees the new token equals
no existing slot name. -/
lemma add_slot_nodup (w : World) (hnd : NamesNodup w)
    (hres : (add_material_layer_slot w).2 ≠ PyResult.outOfRandomness) :
    NamesNodup (add_material_layer_slot w).1 := by
  rcases add_slot_layers w with ⟨uid, rng1, hf, hperm⟩ | h
  · have hfresh := findFreshId_spec _ _ _ _ hf
    have hnotmem := collFind_eq_neg_one _ _ hfresh
    have huid_orig : ∀ s ∈ w.matlayer_layers, s.name ≠ uid := fun s hs =>
      hnotmem s (List.mem_append_left _ hs)
    have hnodup2 :
        ((w.matlayer_layers ++ [({ name := uid, hidden := false } : LayerSlot)]).map LayerSlot.name).Nodup := by
      rw [List.map_append]
      apply List.Nodup.append hnd (List.nodup_singleton uid)
      intro a ha hb
      rw [List.mem_singleton] at hb
      subst hb
      rcases List.mem_map.mp ha with ⟨s, hs, hname⟩
      exact huid_orig s hs hname
    exact ((hperm.map LayerSlot.name).nodup_iff).mpr hnodup2
  · exact absurd h hres

/-- Chains of `add_material_layer_slot` calls (each one drawing enough
randomness to leave its retry loop); the store mutations persist even
though every call ends in the `AttributeError` of source line 272/280. -/
inductive AddReach (w : World) : World → Prop where
  | refl : AddReach w w
  | step (w1 w2 : World) (res : PyResult Int) (h : AddReach w w1)
      (heq : add_material_layer_slot w1 = (w2, res))
      (hres : res ≠ PyResult.outOfRandomness) : AddReach w w2

lemma append_cons_underscore_inj :
    ∀ (l1 l2 d1 d2 : List Char), '_' ∉ d1 → '_' ∉ d2 →
      l1 ++ '_' :: d1 = l2 ++ '_' :: d2 → l1 = l2 ∧ d1 = d2 := by
  intro l1
  induction l1 with
  | nil =>
    intro l2 d1 d2 h1 h2 heq
    cases l2 with
    | nil => simpa using heq
    | cons c l2 =>
      simp only [List.nil_append, List.cons_append, List.cons.injEq] at heq
      exfalso
      apply h1
      rw [heq.2]
      exact List.mem_append_right _ (List.mem_cons_self '_' d2)
  | cons c l1 ih =>
    intro l2 d1 d2 h1 h2 heq
    cases l2 with
    | nil =>
      simp only [List.nil_append, List.cons_append, List.cons.injEq] at heq
      exfalso
      apply h2
      rw [← heq.2]
      exact List.mem_append_right _ (List.mem_cons_self '_' d1)
    | cons c2 l2 =>
      simp only [List.cons_append, List.cons.injEq] at heq
      obtain ⟨rfl, htl⟩ := heq
      obtain ⟨he1, he2⟩ := ih l2 d1 d2 h1 h2 htl
      exact ⟨by rw [he1], he2⟩

/-! ### Claims -/

/-! #### C1 -/

def matC1 : BlenderMaterial :=
  { name := "Cube",
    node_tree := { name := "NT", nodes := [mkNode "0" NINE_CHANNEL_OUTPUTS []], links := [] } }

/-- A consistent one-layer state: the slot store holds one slot and the
active material graph holds exactly the layer group node named `"0"`. -/
def objC1 : BlenderObject :=
  { name := "Cube", obj_type := "MESH", material_slots := [some matC1],
    active_material_index := 0 }

def worldC1 : World :=
  { active_object := some objC1,
    node_groups := [], matlayer_layers := [{ name := "5", hidden := false }],
    matlayer_layer_stack := { selected_layer_index := 0 }, rng := [], reports := [] }

/-- C1: the claim states that after every add/remove/move/duplicate
operation on an initially consistent material the graph-derived layer
count (`read_total_layers`) equals the slot store length.  The code
violates this: from a consistent one-slot, one-layer-node state, the
delete layer operator removes the slot but performs no graph edit, so the
store length drops to 0 while `read_total_layers` still reports 1 (it can
never report 0, since its probe counter starts at 1). -/
theorem claim_C1_code_bug :
    read_total_layers worldC1 = .ok worldC1.matlayer_layers.length
    ∧ (runOperator delete_layer_execute worldC1).1.matlayer_layers.length = 0
    ∧ read_total_layers (runOperator delete_layer_execute worldC1).1 = .ok 1 := by decide

/-! #### C2 -/

/-- A store with two slots and no selection (the -1 sentinel); the next
random draw is 7. -/
def worldC2 : World :=
  { active_object := none, node_groups := [],
    matlayer_layers := [{ name := "a", hidden := false }, { name := "b", hidden := false }],
    matlayer_layer_stack := { selected_layer_index := -1 }, rng := [7], reports := [] }

/-- C2: the claim states that `add_material_layer_slot` with no prior
selection moves the new slot to position 0, sets the selected index to 0
and returns 0.  The code does move the new slot (id `"7"`) to position 0,
but then assigns the undeclared `layer_stack.layer_index` attribute
(source line 272), so the call raises `AttributeError` instead of
returning, and `selected_layer_index` stays -1. -/
theorem claim_C2_code_bug :
    (add_material_layer_slot worldC2).1.matlayer_layers.map LayerSlot.name = ["7", "a", "b"]
    ∧ (add_material_layer_slot worldC2).1.matlayer_layer_stack.selected_layer_index = -1
    ∧ (add_material_layer_slot worldC2).2 = .raised "AttributeError" := by decide

/-! #### C3 -/

/-- A one-slot store with slot 0 selected. -/
def worldC3 : World :=
  { active_object := none, node_groups := [],
    matlayer_layers := [{ name := "9", hidden := false }],
    matlayer_layer_stack := { selected_layer_index := 0 }, rng := [], reports := [] }

/-- C3: the claim states that deleting the slot at selected index `i`
updates the selected index to `max(min(i-1, count-1), 0)`, leaving it -1
exactly when the store becomes empty.  The code computes that value but
assigns it to the undeclared `layer_stack.layer_index` attribute (source
line 187): the removal happens, the assignment raises `AttributeError`,
and `selected_layer_index` keeps its old value 0 although the store is
now empty (the claim requires -1). -/
theorem claim_C3_code_bug :
    (delete_layer_execute worldC3).1.matlayer_layers = []
    ∧ (delete_layer_execute worldC3).1.matlayer_layer_stack.selected_layer_index = 0
    ∧ (delete_layer_execute worldC3).2 = .raised "AttributeError" := by decide

/-! #### C4 -/

/-- A material whose node tree holds no nodes at all (so in particular
no integer-named layer nodes). -/
def matC4 : BlenderMaterial :=
  { name := "Cube", node_tree := { name := "NT", nodes := [], links := [] } }

def objC4 : BlenderObject :=
  { name := "Cube", obj_type := "MESH", material_slots := [some matC4],
    active_material_index := 0 }

def worldC4 : World :=
  { active_object := some objC4,
    node_groups := [], matlayer_layers := [],
    matlayer_layer_stack := { selected_layer_index := -1 }, rng := [], reports := [] }

/-- C4 counterexample: the claim states that `read_total_layers` probes
by integer-named lookup starting at index 0 and returns 0 for a tree with
no integer-named layer nodes; on such a tree the code returns 1, because
its counter starts at 1 and a miss on the first probe returns the
counter unchanged. -/
theorem claim_C4_counterexample :
    read_total_layers worldC4 ≠ .ok 0 ∧ read_total_layers worldC4 = .ok 1 := by decide

/-- C4 amended: `read_total_layers` probes by integer-named node lookup
starting at 1 (not 0) and returns the first miss index: for a tree whose
integer-named nodes are exactly `"0" .. "n-1"` with `n ≥ 1` it returns
`n`, and for a tree with no integer-named layer nodes it returns 1 (not
0). -/
theorem claim_C4_amended :
    (∀ (tree : BlenderNodeTree) (n : Nat), 1 ≤ n →
        (∀ k : Nat, (∃ nd ∈ tree.nodes, nd.name = pyStr k) ↔ k < n) →
        read_total_layers_tree tree = n)
    ∧ (∀ tree : BlenderNodeTree,
        (∀ k : Nat, ∀ nd ∈ tree.nodes, nd.name ≠ pyStr k) →
        read_total_layers_tree tree = 1) := by
  constructor
  · intro tree n hn hexact
    have hlen := exact_names_length_le tree n hexact
    unfold read_total_layers_tree
    apply countLayersFrom_eq tree n (tree.nodes.length + 1) 1 hn (by omega)
    · intro k _ hk2
      exact nodesGet_isSome_of_exists tree (pyStr k) ((hexact k).mpr hk2)
    · apply nodesGet_eq_none_of_forall
      intro nd hnd hne
      have : n < n := (hexact n).mp ⟨nd, hnd, hne⟩
      omega
  · intro tree hnone
    unfold read_total_layers_tree
    apply countLayersFrom_eq tree 1 (tree.nodes.length + 1) 1 le_rfl (by omega)
    · intro k hk1 hk2
      omega
    · exact nodesGet_eq_none_of_forall tree _ (fun nd hnd => hnone 1 nd hnd)

def treeC4w : BlenderNodeTree := { name := "NT", nodes := [mkNode "0" [] []], links := [] }

def treeC4e : BlenderNodeTree := { name := "Empty", nodes := [], links := [] }

/-- C4 witness: the amended statement applied to a concrete one-layer
tree (integer-named nodes exactly `"0"`) and to a concrete empty tree. -/
theorem claim_C4_witness :
    read_total_layers_tree treeC4w = 1 ∧ read_total_layers_tree treeC4e = 1 := by
  constructor
  · apply claim_C4_amended.1 treeC4w 1 le_rfl
    intro k
    constructor
    · rintro ⟨nd, hnd, hname⟩
      have hnd0 : nd = mkNode "0" [] [] := by simpa [treeC4w] using hnd
      subst hnd0
      have h0 : pyStr 0 = (mkNode "0" [] []).name := by decide
      have := pyStr_injective (h0.trans hname)
      omega
    · intro hk
      refine ⟨mkNode "0" [] [], by simp [treeC4w], ?_⟩
      have hk0 : k = 0 := by omega
      subst hk0
      decide
  · apply claim_C4_amended.2 treeC4e
    intro k nd hnd
    simp [treeC4e] at hnd

/-! #### C5 -/

/-- A non-mesh active object together with a nonempty slot store. -/
def objC5x : BlenderObject :=
  { name := "Curve", obj_type := "CURVE", material_slots := [],
    active_material_index := 0 }

def worldC5x : World :=
  { active_object := some objC5x,
    node_groups := [], matlayer_layers := [{ name := "4", hidden := false }],
    matlayer_layer_stack := { selected_layer_index := 0 }, rng := [], reports := [] }

/-- C5 counterexample: the claim states that every layer command with a
failed precondition (no active object or unsupported geometry) reports
the failure and mutates nothing.  The delete layer command on a CURVE
object (unsupported geometry) mutates the slot store and reports
nothing: its `execute` has no geometry check at all. -/
theorem claim_C5_counterexample :
    (runOperator delete_layer_execute worldC5x).1.matlayer_layers ≠ worldC5x.matlayer_layers
    ∧ (runOperator delete_layer_execute worldC5x).1.reports = worldC5x.reports := by decide

/-- C5 amended: with no active target object every layer command is
blocked by its poll before `execute` runs and mutates nothing; and for
the add material layer command specifically, an unsupported geometry
type makes the command report the failure message and leave the slot
store, the selection state and the active material graph exactly as
before (only the other commands lack the geometry gate). -/
theorem claim_C5_amended :
    (∀ w : World, w.active_object = none →
        runOperator add_material_layer_execute w = (w, .raised "RuntimeError")
        ∧ runOperator add_paint_material_layer_execute w = (w, .raised "RuntimeError")
        ∧ runOperator add_decal_material_layer_execute w = (w, .raised "RuntimeError")
        ∧ runOperator (move_material_layer_execute "UP") w = (w, .raised "RuntimeError")
        ∧ runOperator duplicate_layer_execute w = (w, .raised "RuntimeError")
        ∧ runOperator delete_layer_execute w = (w, .raised "RuntimeError"))
    ∧ (∀ (w : World) (obj : BlenderObject),
        w.active_object = some obj → obj.obj_type ≠ "MESH" →
        (runOperator add_material_layer_execute w).1.matlayer_layers = w.matlayer_layers
        ∧ (runOperator add_material_layer_execute w).1.matlayer_layer_stack = w.matlayer_layer_stack
        ∧ activeMaterial (runOperator add_material_layer_execute w).1 = activeMaterial w
        ∧ (runOperator add_material_layer_execute w).1.reports
            = w.reports ++ ["Selected object must be a mesh to add materials"]
        ∧ (runOperator add_material_layer_execute w).2 = .ok ()) := by
  constructor
  · intro w h
    simp [runOperator, pollActiveObject, h]
  · intro w obj hobj hmesh
    have hpoll : pollActiveObject w = true := by simp [pollActiveObject, hobj]
    have hrun : runOperator add_material_layer_execute w = add_material_layer_execute w := by
      simp [runOperator, hpoll]
    obtain ⟨hf1, hf2, hf3, hf4⟩ := append_default_node_groups_fields w
    have hexec : add_material_layer_execute w =
        (log_status (append_default_node_groups w)
          "Selected object must be a mesh to add materials", .ok ()) := by
      simp only [add_material_layer_execute, hobj, if_pos hmesh]
    rw [hrun, hexec]
    refine ⟨by simp [log_status, hf1], by simp [log_status, hf2], ?_,
      by simp [log_status, hf4], rfl⟩
    apply activeMaterial_congr
    simp [log_status, hf3]

def objC5w : BlenderObject :=
  { name := "E", obj_type := "EMPTY", material_slots := [],
    active_material_index := 0 }

def worldC5w : World :=
  { active_object := some objC5w,
    node_groups := [], matlayer_layers := [],
    matlayer_layer_stack := { selected_layer_index := -1 }, rng := [], reports := [] }

def worldC5n : World :=
  { active_object := none, node_groups := [], matlayer_layers := [],
    matlayer_layer_stack := { selected_layer_index := -1 }, rng := [], reports := [] }

/-- C5 witness: the amended statement applied to a concrete world with
no active object (delete is blocked) and to a concrete world with an
EMPTY-type active object (add material layer reports and leaves the
store as it was). -/
theorem claim_C5_witness :
    runOperator delete_layer_execute worldC5n = (worldC5n, .raised "RuntimeError")
    ∧ (runOperator add_material_layer_execute worldC5w).1.reports
        = worldC5w.reports ++ ["Selected object must be a mesh to add materials"]
    ∧ (runOperator add_material_layer_execute worldC5w).1.matlayer_layers
        = worldC5w.matlayer_layers :=
  ⟨(claim_C5_amended.1 worldC5n rfl).2.2.2.2.2,
   (claim_C5_amended.2 worldC5w objC5w rfl (by decide)).2.2.2.1,
   (claim_C5_amended.2 worldC5w objC5w rfl (by decide)).1⟩

/-! #### C6 -/

def bsdfInputs : List String :=
  ["Base Color", "Subsurface", "Metallic", "Specular", "Roughness", "Emission", "Alpha"]

def treeC6 : BlenderNodeTree :=
  { name := "NT", nodes := [mkNode "0" NINE_CHANNEL_OUTPUTS [], mkNode "MATLAYER_BSDF" [] bsdfInputs],
    links := [] }

def matC6 : BlenderMaterial := { name := "Cube", node_tree := treeC6 }

/-- A material graph holding the layer node `"0"` and the BSDF node but
missing the `NORMAL_HEIGHT_MIX` node. -/
def objC6 : BlenderObject :=
  { name := "Cube", obj_type := "MESH", material_slots := [some matC6],
    active_material_index := 0 }

def worldC6 : World :=
  { active_object := some objC6,
    node_groups := [], matlayer_layers := [{ name := "5", hidden := false }],
    matlayer_layer_stack := { selected_layer_index := 0 }, rng := [], reports := [] }

/-- C6: the claim states that a failed named-node lookup in a
synchronizer operation surfaces a distinct inconsistent-graph error and
aborts before any mutation.  In `connect_layer_group_nodes` the
`NORMAL_HEIGHT_MIX` lookup silently yields `None` (line 319), seven
output links are then created, and only the eighth statement raises a
generic `AttributeError` — the operation mutates the graph before the
failed lookup surfaces, and the error is not a distinct condition. -/
theorem claim_C6_code_bug :
    (connect_layer_group_nodes worldC6).2 = .raised "AttributeError"
    ∧ (activeMaterial (connect_layer_group_nodes worldC6).1).map
        (fun m => m.node_tree.links.length) = some 7
    ∧ matC6.node_tree.links.length = 0 := by decide

/-! #### C7 -/

/-- C7: `add_material_layer_slot` draws random tokens until one collides
with no existing slot name; along any chain of such slot insertions
(each drawing enough randomness), starting from a store with pairwise
distinct ids, every reached store again has pairwise distinct ids — in
particular after 10000 insertions. -/
theorem claim_C7_unique_ids (w w2 : World) (hnd : NamesNodup w) (h : AddReach w w2) :
    NamesNodup w2 := by
  induction h with
  | refl => exact hnd
  | step w1 wb res hreach heq hres ih =>
    have h1 : (add_material_layer_slot w1).1 = wb := by rw [heq]
    have h2 : (add_material_layer_slot w1).2 ≠ PyResult.outOfRandomness := by
      rw [heq]
      exact hres
    rw [← h1]
    exact add_slot_nodup w1 ih h2

def worldC7a : World :=
  { active_object := none, node_groups := [], matlayer_layers := [],
    matlayer_layer_stack := { selected_layer_index := -1 }, rng := [3], reports := [] }

def worldC7b : World :=
  { active_object := none, node_groups := [],
    matlayer_layers := [{ name := "3", hidden := false }],
    matlayer_layer_stack := { selected_layer_index := -1 }, rng := [], reports := [] }

/-- C7 witness: one concrete insertion step from the empty store (random
draw 3) reaches a store whose slot ids are pairwise distinct. -/
theorem claim_C7_witness : NamesNodup worldC7b :=
  claim_C7_unique_ids worldC7a worldC7b (by decide)
    (AddReach.step worldC7a worldC7b (.raised "AttributeError") AddReach.refl
      (by decide) (by decide))

/-! #### C8 -/

/-- A two-slot store with the top slot selected and a mesh active
object. -/
def objC8 : BlenderObject :=
  { name := "Cube", obj_type := "MESH", material_slots := [],
    active_material_index := 0 }

def worldC8 : World :=
  { active_object := some objC8,
    node_groups := [],
    matlayer_layers := [{ name := "1", hidden := false }, { name := "2", hidden := false }],
    matlayer_layer_stack := { selected_layer_index := 0 }, rng := [], reports := [] }

/-- C8: the claim states that the move layer command swaps the slot with
its adjacent neighbour (and is a no-op only at the boundary).  The
command is a no-op everywhere: its `execute` body only returns
`FINISHED`, so moving the selected slot 0 of a two-slot store down
leaves the store unswapped, contradicting the described swap and the
operator description text itself. -/
theorem claim_C8_code_bug :
    runOperator (move_material_layer_execute "DOWN") worldC8 = (worldC8, .ok ())
    ∧ worldC8.matlayer_layers ≠
        [{ name := "2", hidden := false }, { name := "1", hidden := false }] := by decide

/-! #### C9 -/

/-- C9: `format_layer_group_node_name` is a pure function returning the
material name, an underscore, and the decimal layer index; in particular
it maps ("Wood", 3) to "Wood_3", and it is injective on pairs with a
nonnegative index (the index digits contain no underscore, so the split
at the last underscore is unambiguous). -/
theorem claim_C9_derive_node_name :
    format_layer_group_node_name "Wood" 3 = "Wood_3"
    ∧ ∀ (m1 m2 : String) (i1 i2 : Int), 0 ≤ i1 → 0 ≤ i2 →
        format_layer_group_node_name m1 i1 = format_layer_group_node_name m2 i2 →
        m1 = m2 ∧ i1 = i2 := by
  constructor
  · decide
  · intro m1 m2 i1 i2 h1 h2 heq
    unfold format_layer_group_node_name pyStrInt at heq
    rw [if_neg (by omega), if_neg (by omega)] at heq
    have hdata : (m1 ++ "_" ++ pyStr i1.toNat).data = (m2 ++ "_" ++ pyStr i2.toNat).data := by
      rw [heq]
    rw [string_data_append, string_data_append, string_data_append, string_data_append] at hdata
    rw [List.append_assoc, List.append_assoc] at hdata
    have hu : ("_" : String).data = ['_'] := rfl
    rw [hu] at hdata
    simp only [List.singleton_append] at hdata
    obtain ⟨hm, hd⟩ := append_cons_underscore_inj m1.data m2.data _ _
      (pyStr_no_underscore i1.toNat) (pyStr_no_underscore i2.toNat) hdata
    have hmn : m1 = m2 := string_eq_of_data_eq hm
    have hnat : i1.toNat = i2.toNat := pyStr_injective (string_eq_of_data_eq hd)
    exact ⟨hmn, by omega⟩

/-- C9 witness: the formatting equation on ("Wood", 3) and injectivity
applied at a concrete pair. -/
theorem claim_C9_witness :
    format_layer_group_node_name "Wood" 3 = "Wood_3" ∧ "Wood" = "Wood" ∧ (3 : Int) = 3 :=
  ⟨claim_C9_derive_node_name.1,
   claim_C9_derive_node_name.2 "Wood" "Wood" 3 3 (by decide) (by decide) rfl⟩

/-! #### C10 -/

/-- C10: `get_material_layer_node` signals absence with a nullable
result rather than an error: with an active object but no active
material it returns `None` without raising, and likewise when the
requested node kind is none of the seven recognized kinds. -/
theorem claim_C10_absent_is_none (w : World) (obj : BlenderObject)
    (layer_node_name : String) (layer_index : Int) (chan : String) :
    (w.active_object = some obj → activeMaterialOf obj = none →
        get_material_layer_node w layer_node_name layer_index chan = .ok none)
    ∧ (w.active_object = some obj →
        layer_node_name ∉ ["LAYER", "PROJECTION", "MIX", "OPACITY", "VALUE", "OUTPUT", "INPUT"] →
        get_material_layer_node w layer_node_name layer_index chan = .ok none) := by
  constructor
  · intro hobj hmat
    simp only [get_material_layer_node, hobj, hmat]
  · intro hobj hmem
    simp only [List.mem_cons, List.not_mem_nil, or_false, not_or] at hmem
    obtain ⟨h1, h2, h3, h4, h5, h6, h7⟩ := hmem
    cases hmat : activeMaterialOf obj with
    | none => simp only [get_material_layer_node, hobj, hmat]
    | some mat =>
      simp only [get_material_layer_node, hobj, hmat, if_neg h1, if_neg h2, if_neg h3,
        if_neg h4, if_neg h5, if_neg h6, if_neg h7]

def objC10 : BlenderObject :=
  { name := "Cube", obj_type := "MESH", material_slots := [], active_material_index := 0 }

def worldC10 : World :=
  { active_object := some objC10, node_groups := [], matlayer_layers := [],
    matlayer_layer_stack := { selected_layer_index := -1 }, rng := [], reports := [] }

/-- C10 witness: a concrete lookup with no active material and a
concrete lookup with an unrecognized kind both return `None` without
raising. -/
theorem claim_C10_witness :
    get_material_layer_node worldC10 "LAYER" 0 "Color" = .ok none
    ∧ get_material_layer_node worldC10 "BOGUS" 0 "Color" = .ok none :=
  ⟨(claim_C10_absent_is_none worldC10 objC10 "LAYER" 0 "Color").1 rfl rfl,
   (claim_C10_absent_is_none worldC10 objC10 "BOGUS" 0 "Color").2 rfl (by decide)⟩

end MatLayer
